import Mathlib

/-!
Verification of the theme-park simulation entities (Attraction, Activity,
Agent) by a shallow embedding of the Python source into Lean.

Modelling conventions:
* Python numbers (ints and floats) are embedded as exact rationals `ℚ`
  (or `ℤ`/`ℕ` where the source value is an integer); float rounding is
  abstracted away, all arithmetic is exact.
* `int(x)` is truncation toward zero (`pyInt`).
* A list slice `l[:k]` with an integer-typed count is `List.take`, `l[k:]`
  is `List.drop`; Python `del l[i]` is `List.eraseIdx`.  A slice whose
  index has float type raises `TypeError`: in `Attraction.step` the count
  `max(capacity - len(exp_queue), 0)` is a float whenever the difference is
  nonnegative (`capacity` is always a float and Python's `max` then returns
  its float argument, `0.0` included), so the standby slice raises; this is
  modelled by an error outcome (`none`) carrying the state as already
  mutated by the lines executed before the raise.
* Integer floor division `a // b` is `⌊a / b⌋` over `ℚ` (or `Nat` division
  where both operands are naturals).
* Stochastic draws are explicit parameters: a seeded numpy draw is an
  uninterpreted function of its seed (and distribution parameters), shared
  by any two runs, while a draw from the unseeded global source is a plain
  value supplied per run.
* A Python run-time error (TypeError on `None` arithmetic, ValueError from
  `list.remove`) is modelled by an `Option` result where a claim depends
  on it.
-/

/-- Python `int(...)`: truncation toward zero of a rational. -/
def pyInt (q : ℚ) : ℤ := if 0 ≤ q then ⌊q⌋ else ⌈q⌉

/-- Python truthiness of an optional integer (`None` and `0` are falsy). -/
def pyTruthy : Option ℤ → Bool
  | none => false
  | some k => k ≠ 0

/-- State of an `Attraction` (src/attraction.py): static configuration plus
the mutable queue/ride state dictionary. -/
structure Attraction where
  run_time : ℚ
  capacity : ℚ
  popularity : ℤ
  child_eligible : Bool
  adult_eligible : Bool
  run_time_remaining : ℚ
  expedited_queue : Bool
  exp_queue_ratio : ℚ
  exp_queue_passes : ℚ
  agents_in_attraction : List ℤ
  queue : List ℤ
  exp_queue : List ℤ
  exp_queue_passes_distributed : ℤ
  deriving Repr, DecidableEq

namespace Attraction

/-- `add_to_queue` (src/attraction.py line 121): append to the standby queue. -/
def add_to_queue (s : Attraction) (agent_id : ℤ) : Attraction :=
  { s with queue := s.queue ++ [agent_id] }

/-- `remove_pass` (src/attraction.py line 135). -/
def remove_pass (s : Attraction) : Attraction :=
  { s with exp_queue_passes := s.exp_queue_passes - 1,
           exp_queue_passes_distributed := s.exp_queue_passes_distributed + 1 }

/-- `return_pass` (src/attraction.py line 142); `list.remove` raises
`ValueError` when the agent is absent, modelled as `none`. -/
def return_pass (s : Attraction) (agent_id : ℤ) : Option Attraction :=
  if s.exp_queue.contains agent_id then
    some { s with exp_queue_passes := s.exp_queue_passes + 1,
                  exp_queue_passes_distributed := s.exp_queue_passes_distributed - 1,
                  exp_queue := s.exp_queue.erase agent_id }
  else none

/-- One iteration of the shared wait-estimation loop body
(src/attraction.py lines 76-86 and 105-115; the two loops have the same
body and differ only in their guard).  The pair is (queue_len, exp_queue_len). -/
def loopBody (cap es ss : ℚ) (qe : ℚ × ℚ) : ℚ × ℚ :=
  if qe.2 > es then
    (if qe.1 > ss then qe.1 - ss else 0, qe.2 - es)
  else
    (qe.1 - (cap - qe.2), 0)

/-- The `get_wait_time` while-loop (guard `queue_len >= capacity`),
returning the number of runs; `none` when `fuel` iterations do not
reach the guard's negation (the Python loop is still running). -/
def waitLoop (cap es ss : ℚ) : ℕ → ℚ × ℚ → Option ℕ
  | fuel, qe =>
    if qe.1 < cap then some 0
    else
      match fuel with
      | 0 => none
      | fuel + 1 => (waitLoop cap es ss fuel (loopBody cap es ss qe)).map (· + 1)

/-- The `get_exp_wait_time` while-loop (guard `exp_queue_len >= capacity`). -/
def expLoop (cap es ss : ℚ) : ℕ → ℚ × ℚ → Option ℕ
  | fuel, qe =>
    if qe.2 < cap then some 0
    else
      match fuel with
      | 0 => none
      | fuel + 1 => (expLoop cap es ss fuel (loopBody cap es ss qe)).map (· + 1)

/-- `get_wait_time` (src/attraction.py line 63), with explicit fuel for
the forward-simulation loop. -/
def get_wait_time (s : Attraction) (fuel : ℕ) : Option ℚ :=
  if s.expedited_queue then
    let es : ℚ := (pyInt (s.capacity * s.exp_queue_ratio) : ℚ)
    let ss : ℚ := s.capacity - es
    (waitLoop s.capacity es ss fuel ((s.queue.length : ℚ), (s.exp_queue.length : ℚ))).map
      (fun runs => (runs : ℚ) * s.run_time + s.run_time_remaining)
  else
    some ((⌊(s.queue.length : ℚ) / s.capacity⌋ : ℚ) * s.run_time + s.run_time_remaining)

/-- `get_exp_wait_time` (src/attraction.py line 92), with explicit fuel. -/
def get_exp_wait_time (s : Attraction) (fuel : ℕ) : Option ℚ :=
  if s.expedited_queue then
    let es : ℚ := (pyInt (s.capacity * s.exp_queue_ratio) : ℚ)
    let ss : ℚ := s.capacity - es
    (expLoop s.capacity es ss fuel ((s.queue.length : ℚ), (s.exp_queue.length : ℚ))).map
      (fun runs => (runs : ℚ) * s.run_time + s.run_time_remaining)
  else
    some 0

/-- `add_to_exp_queue` (src/attraction.py line 127): append to the expedited
queue, then return the estimated expedited wait. -/
def add_to_exp_queue (s : Attraction) (agent_id : ℤ) (fuel : ℕ) :
    Attraction × Option ℚ :=
  let s2 := { s with exp_queue := s.exp_queue ++ [agent_id] }
  (s2, s2.get_exp_wait_time fuel)

/-- The expedited-pass quota update at the top of `step`
(src/attraction.py lines 161-177). -/
def quotaUpdate (s : Attraction) (time park_close : ℕ) : Attraction :=
  if s.expedited_queue then
    if time < park_close then
      let remaining_operating_hours : ℕ := (park_close - time) / 60
      let passed_operating_hours : ℕ := time / 60
      { s with exp_queue_passes :=
          s.capacity * (60 / s.run_time) * s.exp_queue_ratio * (remaining_operating_hours : ℚ)
          - max ((s.exp_queue_passes_distributed : ℚ)
              - s.capacity * (60 / s.run_time) * s.exp_queue_ratio * (passed_operating_hours : ℚ)) 0 }
    else
      { s with exp_queue_passes := 0 }
  else s

/-- `step` (src/attraction.py line 150): quota update, then (when the cycle
timer is at 0) unload all riders, reset the timer, and load from the
expedited queue then the standby queue.  Returns the new state together
with `some (exiting_agents, loaded_agents)` when the call completes.

The standby count `max_queue_agents = max(capacity - len(exp_queue), 0)`
(line 187, computed before the expedited slice of line 192) is a Python
float whenever `capacity - len(exp_queue) >= 0`, because `capacity =
hourly_throughput * (run_time / 60)` is a float and `max` then returns its
float argument (including `0.0`); the slice `queue[:max_queue_agents]` at
line 195 therefore raises `TypeError`.  Only when `capacity -
len(exp_queue) < 0` does `max` return the int `0` and the call completes,
loading `queue[:0] = []` standby agents.  The raise is modelled as `none`,
with the state keeping the mutations of lines 181-192 that precede it:
riders unloaded, timer reset, expedited prefix riding, expedited queue
cut to its suffix, standby queue untouched. -/
def step (s : Attraction) (time park_close : ℕ) :
    Attraction × Option (List ℤ × List ℤ) :=
  let s := s.quotaUpdate time park_close
  if s.run_time_remaining = 0 then
    let exiting_agents := s.agents_in_attraction
    let max_exp_queue_agents : ℤ := pyInt (s.capacity * s.exp_queue_ratio)
    let expedited_agents_to_load := s.exp_queue.take max_exp_queue_agents.toNat
    if s.capacity - (s.exp_queue.length : ℚ) < 0 then
      let agents_to_load := s.queue.take 0
      let loaded_agents := expedited_agents_to_load ++ agents_to_load
      ({ s with agents_in_attraction := loaded_agents,
                run_time_remaining := s.run_time,
                exp_queue := s.exp_queue.drop max_exp_queue_agents.toNat,
                queue := s.queue.drop 0 },
       some (exiting_agents, loaded_agents))
    else
      ({ s with agents_in_attraction := expedited_agents_to_load,
                run_time_remaining := s.run_time,
                exp_queue := s.exp_queue.drop max_exp_queue_agents.toNat },
       none)
  else
    (s, some ([], []))

/-- `pass_time` (src/attraction.py line 203). -/
def pass_time (s : Attraction) : Attraction :=
  { s with run_time_remaining := s.run_time_remaining - 1 }

end Attraction

/-- State of an `Activity` (src/activity.py): static configuration plus the
two parallel visitor lists. -/
structure Activity where
  popularity : ℤ
  mean_time : ℚ
  random_seed : Option ℤ
  visitors : List ℤ
  visitor_time_remaining : List ℤ
  deriving Repr, DecidableEq

namespace Activity

/-- `add_to_activity` (src/activity.py line 60).  `np` is the deterministic
seeded numpy draw (a function of seed, mean and standard deviation, shared
by all runs); `gdraw` is the value produced by the unseeded global source
in the run at hand. -/
def add_to_activity (np : ℤ → ℚ → ℚ → ℚ) (gdraw : ℚ) (a : Activity)
    (agent_id : ℤ) (expedited_return_time : Option ℤ) : Activity :=
  let sample : ℚ :=
    if pyTruthy a.random_seed then
      np (a.random_seed.getD 0 + agent_id) a.mean_time (a.mean_time / 2)
    else gdraw
  let stay_time : ℤ := pyInt (max sample 1)
  let stay_time : ℤ :=
    if pyTruthy expedited_return_time then
      min (max 1 (expedited_return_time.getD 0)) stay_time
    else stay_time
  { a with visitors := a.visitors ++ [agent_id],
           visitor_time_remaining := a.visitor_time_remaining ++ [stay_time] }

/-- `force_exit` (src/activity.py line 91); `list.index` raises `ValueError`
when the agent is absent, modelled as `none`. -/
def force_exit (a : Activity) (agent_id : ℤ) : Option Activity :=
  match a.visitors.indexOf? agent_id with
  | none => none
  | some ind =>
    some { a with visitors := a.visitors.eraseIdx ind,
                  visitor_time_remaining := a.visitor_time_remaining.eraseIdx ind }

/-- The comprehension at src/activity.py lines 118-121: the `(index, agent)`
pairs of visitors whose remaining time is 0, in index order; `i` is the
index of the first element of `v` within the full visitor list. -/
def exitingOf (t : List ℤ) : ℕ → List ℤ → List (ℕ × ℤ)
  | _, [] => []
  | i, a :: v => (if t.getD i 1 = 0 then [(i, a)] else []) ++ exitingOf t (i + 1) v

/-- `step` (src/activity.py line 106): collect the visitors whose remaining
time is exactly 0, delete them in reverse index order, and return their IDs
(in the processed, reversed order) together with the new state. -/
def step (a : Activity) (_time : ℤ) : List ℤ × Activity :=
  let exiting_agents := (exitingOf a.visitor_time_remaining 0 a.visitors).reverse
  (exiting_agents.map Prod.snd,
   { a with
     visitors := exiting_agents.foldl (fun l p => l.eraseIdx p.1) a.visitors,
     visitor_time_remaining :=
       exiting_agents.foldl (fun l p => l.eraseIdx p.1) a.visitor_time_remaining })

/-- `pass_time` (src/activity.py line 132). -/
def pass_time (a : Activity) : Activity :=
  { a with visitor_time_remaining := a.visitor_time_remaining.map (fun v => v - 1) }

end Activity

/-- State of an `Agent` (src/agent.py): identity, seed, the mutable state
dictionary and the behaviour traits assigned at initialization. -/
structure Agent where
  agent_id : ℤ
  random_seed : ℤ
  arrival_time : Option ℤ
  exit_time : Option ℤ
  within_park : Bool
  current_location : Option String
  current_action : Option String
  time_spent_at_current_location : ℤ
  expedited_return_time : List ℤ
  expedited_pass : List String
  archetype : String
  stay_time_preference : ℤ
  allow_repeats : Bool
  attraction_preference : ℚ
  wait_threshold : ℤ
  log : String
  deriving Repr, DecidableEq

namespace Agent

/-- The cumulative-weight scan shared by `select_behavior_archetype` and
`select_age_class` (src/agent.py lines 139-143 and 153-157): `u` is the
uniform draw, `floor0` the accumulated weight so far. -/
def weightedScan (u : ℚ) : ℚ → List (String × ℚ) → Option String
  | _, [] => none
  | floor0, (name, w) :: rest =>
    if u < floor0 + w then some name else weightedScan u (floor0 + w) rest

/-- `select_behavior_archetype` (src/agent.py line 136): `u` is the value of
`random.uniform(0, total)` drawn from the unseeded global source of the run
at hand. -/
def select_behavior_archetype (u : ℚ)
    (behavior_archetype_distribution : List (String × ℚ)) : Option String :=
  weightedScan u 0 behavior_archetype_distribution

/-- `select_age_class` (src/agent.py line 145): the same scan over the three
age-class proportions of the chosen archetype, again with a global draw. -/
def select_age_class (u : ℚ)
    (percent_no_child_rides percent_no_adult_rides percent_no_preference : ℚ) :
    Option String :=
  weightedScan u 0
    [("no_child_rides", percent_no_child_rides),
     ("no_adult_rides", percent_no_adult_rides),
     ("no_preference", percent_no_preference)]

/-- The stay-time preference sampling of `initialize_agent`
(src/agent.py lines 122-125): a seeded numpy draw, deterministic in the
seed and the agent ID. -/
def sampleStayTimePreference (np : ℤ → ℚ → ℚ → ℚ) (random_seed agent_id : ℤ)
    (archetype_stay_time_preference : ℚ) : ℤ :=
  pyInt (max (np (random_seed + agent_id) archetype_stay_time_preference
      (archetype_stay_time_preference / 4)) 0)

/-- The stochastic outcomes of one run of `initialize_agent`
(src/agent.py line 38): the run supplies the two global uniform draws
`u1` (archetype) and `u2` (age class); `ageOf` maps an archetype to its
three age-class proportions, `stayOf` to its mean stay-time preference. -/
def initializeDraws (np : ℤ → ℚ → ℚ → ℚ) (random_seed : ℤ) (u1 u2 : ℚ)
    (agent_id : ℤ) (behavior_archetype_distribution : List (String × ℚ))
    (ageOf : String → ℚ × ℚ × ℚ) (stayOf : String → ℚ) :
    Option String × Option String × ℤ :=
  let archetype := select_behavior_archetype u1 behavior_archetype_distribution
  let age_class :=
    match archetype with
    | none => none
    | some b => select_age_class u2 (ageOf b).1 (ageOf b).2.1 (ageOf b).2.2
  let pref :=
    match archetype with
    | none => 0
    | some b => sampleStayTimePreference np random_seed agent_id (stayOf b)
  (archetype, age_class, pref)

/-- `arrive_at_park` (src/agent.py line 159). -/
def arrive_at_park (a : Agent) (time : ℤ) : Agent :=
  { a with within_park := true,
           arrival_time := some time,
           current_location := some "gate",
           current_action := some "idling",
           time_spent_at_current_location := 0,
           log := a.log ++ "Agent arrived at park at time " ++ toString time ++ ". " }

/-- `decide_to_leave_park` (src/agent.py line 168).  `np` is the
deterministic standard-normal numpy draw as a function of its seed.
Returns the (unchanged) agent together with the `(action, location)` pair;
`none` models the `TypeError` raised when `arrival_time` is still `None`
(so that `time - None` is evaluated). -/
def decide_to_leave_park (np : ℤ → ℚ) (a : Agent) (time : ℤ) :
    Option (Agent × Option String × Option String) :=
  match a.arrival_time with
  | none => none
  | some t0 =>
    if time ≠ t0 then
      let actual_preference_value : ℚ := ((time - t0 : ℤ) : ℚ) - (a.stay_time_preference : ℚ)
      let normal_coinflip : ℚ := np (a.random_seed + a.agent_id + time) * 60
      if actual_preference_value > normal_coinflip then
        some (a, some "leaving", some "gate")
      else
        some (a, none, none)
    else
      some (a, none, none)

/-- `pass_time` (src/agent.py line 180). -/
def pass_time (a : Agent) : Agent :=
  if a.within_park then
    { a with time_spent_at_current_location := a.time_spent_at_current_location + 1,
             expedited_return_time :=
               if a.expedited_pass.isEmpty then a.expedited_return_time
               else a.expedited_return_time.map (fun v => v - 1) }
  else a

end Agent

/-- A sample attraction with the expedited queue enabled (capacity 10 from
hourly throughput 120 and run time 5, expedited seat ratio 1/5). -/
def attrSample : Attraction :=
  { run_time := 5, capacity := 10, popularity := 5,
    child_eligible := true, adult_eligible := true,
    run_time_remaining := 0, expedited_queue := true, exp_queue_ratio := 1/5,
    exp_queue_passes := 0, agents_in_attraction := [],
    queue := [], exp_queue := [], exp_queue_passes_distributed := 0 }

/-- The scenario attraction of claim C8: capacity 10, run time 5, expedited
queue disabled, 25 agents in the standby queue, cycle timer at 0. -/
def attrScenario : Attraction :=
  { attrSample with expedited_queue := false, exp_queue_ratio := 0,
                    queue := (List.range 25).map Int.ofNat }

/-- Claim C4 counterexample: on an attraction with no passes out, adding
agent 7 via `add_to_exp_queue` and then removing it via `return_pass`
leaves `exp_queue_passes = 1` and `exp_queue_passes_distributed = -1`,
not the pre-add values `(0, 0)`. -/
theorem c4_counterexample :
    (((attrSample.add_to_exp_queue 7 0).1.return_pass 7).map
        (fun s => (s.exp_queue_passes, s.exp_queue_passes_distributed)))
      = some ((1 : ℚ), (-1 : ℤ))
    ∧ some ((1 : ℚ), (-1 : ℤ)) ≠
        some (attrSample.exp_queue_passes, attrSample.exp_queue_passes_distributed) := by
  constructor
  · norm_num [attrSample, Attraction.add_to_exp_queue, Attraction.return_pass]
  · norm_num [attrSample]

/-- Claim C4 (amended): a pass distributed via `remove_pass`, with the agent
added via `add_to_exp_queue` and later removed via `return_pass`, leaves
`exp_queue_passes` and `exp_queue_passes_distributed` restored to their
values from before the `remove_pass`. -/
theorem c4_remove_add_return_roundtrip (s : Attraction) (agent_id : ℤ) (fuel : ℕ) :
    (((s.remove_pass.add_to_exp_queue agent_id fuel).1.return_pass agent_id).map
        (fun s2 => (s2.exp_queue_passes, s2.exp_queue_passes_distributed)))
      = some (s.exp_queue_passes, s.exp_queue_passes_distributed) := by
  simp [Attraction.remove_pass, Attraction.add_to_exp_queue, Attraction.return_pass]

/-- Claim C5: for an attraction with the expedited queue enabled, every call
to `step(time, park_close)` recomputes `exp_queue_passes`: zero at or after
park close, and otherwise the expedited capacity of the remaining whole
operating hours minus the excess of distributed passes over the expedited
capacity of the elapsed whole operating hours (floored at zero). -/
theorem c5_quota_recompute (s : Attraction) (time park_close : ℕ)
    (h : s.expedited_queue = true) :
    ((s.step time park_close).1).exp_queue_passes =
      if time < park_close then
        s.capacity * (60 / s.run_time) * s.exp_queue_ratio * (((park_close - time) / 60 : ℕ) : ℚ)
        - max ((s.exp_queue_passes_distributed : ℚ)
            - s.capacity * (60 / s.run_time) * s.exp_queue_ratio * ((time / 60 : ℕ) : ℚ)) 0
      else 0 := by
  unfold Attraction.step Attraction.quotaUpdate
  simp only [h, if_true]
  split_ifs <;> rfl

/-- Claim C5 witness at a concrete attraction, time 120 and park close 600. -/
theorem c5_quota_recompute_witness :
    attrSample.expedited_queue = true ∧
    ((attrSample.step 120 600).1).exp_queue_passes =
      if (120 : ℕ) < 600 then
        attrSample.capacity * (60 / attrSample.run_time) * attrSample.exp_queue_ratio * (((600 - 120) / 60 : ℕ) : ℚ)
        - max ((attrSample.exp_queue_passes_distributed : ℚ)
            - attrSample.capacity * (60 / attrSample.run_time) * attrSample.exp_queue_ratio * ((120 / 60 : ℕ) : ℚ)) 0
      else 0 :=
  ⟨rfl, c5_quota_recompute attrSample 120 600 rfl⟩

/-- Claim C8 (code bug): the two disabled-expedited wait-time getters do
follow the claimed closed forms on the scenario attraction (floor(25/10) *
5 + 0 = 10 before the step), but the scenario's first `step` call does not
unload 0 and load 10 agents: `max(capacity - len(exp_queue), 0) = 10.0` is
a float, so the standby slice `queue[:10.0]` raises `TypeError` — contrary
to `step`'s own docstring ("Loads visitors from the expedited and regular
queue").  The call returns nothing, all 25 agents stay queued, and
`get_wait_time` on the post-error state is 15, not the claimed 10. -/
theorem c8_scenario_type_error :
    attrScenario.expedited_queue = false
    ∧ attrScenario.get_wait_time 0 =
        some ((⌊(attrScenario.queue.length : ℚ) / attrScenario.capacity⌋ : ℚ)
          * attrScenario.run_time + attrScenario.run_time_remaining)
    ∧ attrScenario.get_exp_wait_time 0 = some 0
    ∧ (attrScenario.step 0 600).2 = none
    ∧ (attrScenario.step 0 600).1.agents_in_attraction = []
    ∧ (attrScenario.step 0 600).1.queue.length = 25
    ∧ (attrScenario.step 0 600).1.get_wait_time 0 = some 15
    ∧ (15 : ℚ) ≠ 10 := by
  refine ⟨rfl, ?_, ?_, ?_, ?_, ?_, ?_, by norm_num⟩
  · simp [Attraction.get_wait_time, attrScenario, attrSample]
  · simp [Attraction.get_exp_wait_time, attrScenario, attrSample]
  · norm_num [attrScenario, attrSample, Attraction.step, Attraction.quotaUpdate, pyInt,
      Int.toNat]
  · norm_num [attrScenario, attrSample, Attraction.step, Attraction.quotaUpdate, pyInt,
      Int.toNat]
  · norm_num [attrScenario, attrSample, Attraction.step, Attraction.quotaUpdate, pyInt,
      Int.toNat]
  · norm_num [attrScenario, attrSample, Attraction.step, Attraction.quotaUpdate,
      Attraction.get_wait_time, pyInt, Int.toNat]

/-- A sample agent after initialization and arrival at time 0. -/
def agentSample : Agent :=
  { agent_id := 4, random_seed := 12, arrival_time := some 0, exit_time := none,
    within_park := true, current_location := some "gate", current_action := some "idling",
    time_spent_at_current_location := 0, expedited_return_time := [], expedited_pass := [],
    archetype := "park_tourer", stay_time_preference := 420, allow_repeats := false,
    attraction_preference := 2/5, wait_threshold := 360,
    log := "Agent arrived at park at time 0. " }

/-- Claim C10: `decide_to_leave_park` leaves the agent's state unchanged in
every field, and communicates its decision only through the returned pair,
which is `("leaving", "gate")` exactly when the tick is not the arrival
tick and the elapsed-time overshoot exceeds the scaled normal draw, and
`(None, None)` otherwise (in particular on the arrival tick). -/
theorem c10_decide_to_leave_frame (np : ℤ → ℚ) (a : Agent) (time t0 : ℤ)
    (h : a.arrival_time = some t0) :
    a.decide_to_leave_park np time =
      some (a,
        if time ≠ t0 then
          if ((time - t0 : ℤ) : ℚ) - (a.stay_time_preference : ℚ)
              > np (a.random_seed + a.agent_id + time) * 60 then
            (some "leaving", some "gate")
          else (none, none)
        else (none, none)) := by
  simp only [Agent.decide_to_leave_park, h,
    apply_ite (fun p => (some (a, p) : Option (Agent × Option String × Option String)))]

/-- Claim C10 witness: the frame theorem applied to a concrete agent, draw
function and tick. -/
theorem c10_decide_to_leave_frame_witness :
    agentSample.arrival_time = some 0 ∧
    agentSample.decide_to_leave_park (fun _ => 0) 1 =
      some (agentSample,
        if (1 : ℤ) ≠ 0 then
          if (((1 : ℤ) - 0 : ℤ) : ℚ) - (agentSample.stay_time_preference : ℚ)
              > (fun _ => (0 : ℚ)) (agentSample.random_seed + agentSample.agent_id + 1) * 60 then
            (some "leaving", some "gate")
          else (none, none)
        else (none, none)) :=
  ⟨rfl, c10_decide_to_leave_frame (fun _ => 0) agentSample 1 0 rfl⟩

namespace Attraction

@[simp]
theorem quotaUpdate_run_time (s : Attraction) (t pc : ℕ) :
    (s.quotaUpdate t pc).run_time = s.run_time := by
  unfold quotaUpdate; split_ifs <;> rfl

@[simp]
theorem quotaUpdate_capacity (s : Attraction) (t pc : ℕ) :
    (s.quotaUpdate t pc).capacity = s.capacity := by
  unfold quotaUpdate; split_ifs <;> rfl

@[simp]
theorem quotaUpdate_run_time_remaining (s : Attraction) (t pc : ℕ) :
    (s.quotaUpdate t pc).run_time_remaining = s.run_time_remaining := by
  unfold quotaUpdate; split_ifs <;> rfl

@[simp]
theorem quotaUpdate_exp_queue_ratio (s : Attraction) (t pc : ℕ) :
    (s.quotaUpdate t pc).exp_queue_ratio = s.exp_queue_ratio := by
  unfold quotaUpdate; split_ifs <;> rfl

@[simp]
theorem quotaUpdate_agents_in_attraction (s : Attraction) (t pc : ℕ) :
    (s.quotaUpdate t pc).agents_in_attraction = s.agents_in_attraction := by
  unfold quotaUpdate; split_ifs <;> rfl

@[simp]
theorem quotaUpdate_queue (s : Attraction) (t pc : ℕ) :
    (s.quotaUpdate t pc).queue = s.queue := by
  unfold quotaUpdate; split_ifs <;> rfl

@[simp]
theorem quotaUpdate_exp_queue (s : Attraction) (t pc : ℕ) :
    (s.quotaUpdate t pc).exp_queue = s.exp_queue := by
  unfold quotaUpdate; split_ifs <;> rfl

end Attraction

/-- The C1/C7 sample attraction: expedited queue enabled, capacity 10,
ratio 1/5 (2 expedited seats), 5 agents in the expedited queue, 8 in the
standby queue, cycle timer at 0. -/
def attrC1 : Attraction :=
  { attrSample with exp_queue := [1, 2, 3, 4, 5],
                    queue := [11, 12, 13, 14, 15, 16, 17, 18] }

/-- Claim C1 counterexample: with the cycle timer at 0 and 5 agents in the
expedited queue (capacity 10, ratio 1/5), `step` does not return any
`(exiting_agents, loaded_agents)` pair at all: the standby count
`max(10.0 - 5, 0) = 5.0` is a float and the slice `queue[:5.0]` raises
`TypeError`.  In particular it does not return the pair the claim
predicts (standby filled up to capacity minus the 2 expedited seats
actually filled). -/
theorem c1_counterexample :
    (attrC1.step 0 600).2 = none
    ∧ (none : Option (List ℤ × List ℤ)) ≠
        some (attrC1.agents_in_attraction,
          attrC1.exp_queue.take 2 ++ attrC1.queue.take (10 - 2)) := by
  constructor
  · norm_num [attrC1, attrSample, Attraction.step, Attraction.quotaUpdate, pyInt, Int.toNat]
  · decide

/-- Claim C1 (amended): when the cycle timer is 0, `step` unloads all
current riders, resets the timer to `run_time`, and loads the expedited
queue first, FIFO, up to floor(capacity * ratio) seats.  The standby load
then depends on the pre-load expedited queue length: if it is at most
capacity, `max(capacity - len(exp_queue), 0)` is a Python float and the
standby slice raises `TypeError` — the call returns nothing and leaves the
expedited prefix riding, the timer reset and the standby queue untouched;
if it is strictly longer than capacity, `max` yields the int 0, no standby
agent is loaded, and `(exiting_agents, loaded_agents)` is returned.  No
completed call ever loads a standby agent; in particular the remaining
capacity after the expedited seats actually filled is never used.  When
the timer is nonzero, `step` returns `([], [])` and moves nobody. -/
theorem c1_step_load_unload (s : Attraction) (time park_close : ℕ)
    (_hpos : 0 ≤ s.capacity * s.exp_queue_ratio) :
    (s.run_time_remaining = 0 → ¬ s.capacity - (s.exp_queue.length : ℚ) < 0 →
      (s.step time park_close).2 = none
      ∧ (s.step time park_close).1.agents_in_attraction =
          s.exp_queue.take (pyInt (s.capacity * s.exp_queue_ratio)).toNat
      ∧ (s.step time park_close).1.run_time_remaining = s.run_time
      ∧ (s.step time park_close).1.exp_queue =
          s.exp_queue.drop (pyInt (s.capacity * s.exp_queue_ratio)).toNat
      ∧ (s.step time park_close).1.queue = s.queue)
    ∧ (s.run_time_remaining = 0 → s.capacity - (s.exp_queue.length : ℚ) < 0 →
      (s.step time park_close).2 =
          some (s.agents_in_attraction,
            s.exp_queue.take (pyInt (s.capacity * s.exp_queue_ratio)).toNat)
      ∧ (s.step time park_close).1.agents_in_attraction =
          s.exp_queue.take (pyInt (s.capacity * s.exp_queue_ratio)).toNat
      ∧ (s.step time park_close).1.run_time_remaining = s.run_time
      ∧ (s.step time park_close).1.exp_queue =
          s.exp_queue.drop (pyInt (s.capacity * s.exp_queue_ratio)).toNat
      ∧ (s.step time park_close).1.queue = s.queue)
    ∧ (s.run_time_remaining ≠ 0 →
      (s.step time park_close).2 = some ([], [])
      ∧ (s.step time park_close).1.agents_in_attraction = s.agents_in_attraction
      ∧ (s.step time park_close).1.queue = s.queue
      ∧ (s.step time park_close).1.exp_queue = s.exp_queue) := by
  refine ⟨fun h0 h1 => ?_, fun h0 h1 => ?_, fun h0 => ?_⟩
  · simp [Attraction.step, h0, h1]
  · simp [Attraction.step, h0, h1]
  · simp [Attraction.step, h0]

/-- Claim C1 witness: the amended characterization applied to the concrete
attraction of the counterexample (timer 0, expedited queue of 5 not longer
than the capacity 10, so the call ends in the modelled TypeError). -/
theorem c1_step_load_unload_witness :
    ((0 : ℚ) ≤ attrC1.capacity * attrC1.exp_queue_ratio)
    ∧ attrC1.run_time_remaining = 0
    ∧ ¬ attrC1.capacity - (attrC1.exp_queue.length : ℚ) < 0
    ∧ ((attrC1.step 0 600).2 = none
      ∧ (attrC1.step 0 600).1.agents_in_attraction =
          attrC1.exp_queue.take (pyInt (attrC1.capacity * attrC1.exp_queue_ratio)).toNat
      ∧ (attrC1.step 0 600).1.run_time_remaining = attrC1.run_time
      ∧ (attrC1.step 0 600).1.exp_queue =
          attrC1.exp_queue.drop (pyInt (attrC1.capacity * attrC1.exp_queue_ratio)).toNat
      ∧ (attrC1.step 0 600).1.queue = attrC1.queue) :=
  ⟨by norm_num [attrC1, attrSample],
   by norm_num [attrC1, attrSample],
   by norm_num [attrC1, attrSample],
   (c1_step_load_unload attrC1 0 600 (by norm_num [attrC1, attrSample])).1
     (by norm_num [attrC1, attrSample]) (by norm_num [attrC1, attrSample])⟩

/-- The queue-membership invariant of claim C7: every agent ID appears in
at most one of the standby queue, the expedited queue and the riding set,
and at most once in each. -/
def rideInvariant (s : Attraction) : Prop :=
  (s.queue ++ s.exp_queue ++ s.agents_in_attraction).Nodup

/-- Loading prefixes of the two queues onto the (emptied) ride preserves
distinctness of the three lists taken together. -/
theorem nodup_after_load (q e r : List ℤ) (n m : ℕ) (h : (q ++ e ++ r).Nodup) :
    (q.drop n ++ e.drop m ++ (e.take m ++ q.take n)).Nodup := by
  have hqe : (q ++ e).Nodup := h.sublist (List.sublist_append_left (q ++ e) r)
  have hperm : List.Perm (q.drop n ++ e.drop m ++ (e.take m ++ q.take n)) (q ++ e) := by
    rw [← Multiset.coe_eq_coe]
    simp only [← Multiset.coe_add]
    conv_rhs => rw [← List.take_append_drop n q, ← List.take_append_drop m e]
    simp only [← Multiset.coe_add]
    abel
  exact hperm.symm.nodup hqe

/-- Claim C7: `step` preserves the queue-membership invariant, for a single
call and hence for any sequence of calls.  This covers both outcomes of the
reload branch: the completed call (expedited queue longer than capacity,
zero standby agents loaded) and the modelled TypeError (expedited prefix
riding, standby queue untouched) — in both, the three lists together hold
a permutation of a sublist of the original queues. -/
theorem c7_invariant_preserved :
    (∀ (s : Attraction) (time park_close : ℕ),
      rideInvariant s → rideInvariant (s.step time park_close).1)
    ∧ (∀ (calls : List (ℕ × ℕ)) (s : Attraction), rideInvariant s →
        rideInvariant (calls.foldl (fun s2 c => (s2.step c.1 c.2).1) s)) := by
  have hstep : ∀ (s : Attraction) (time park_close : ℕ),
      rideInvariant s → rideInvariant (s.step time park_close).1 := by
    intro s time park_close h
    unfold rideInvariant at h ⊢
    unfold Attraction.step
    by_cases h0 : s.run_time_remaining = 0
    · by_cases h1 : s.capacity - (s.exp_queue.length : ℚ) < 0
      · simp only [Attraction.quotaUpdate_run_time_remaining, h0, if_true,
          Attraction.quotaUpdate_queue, Attraction.quotaUpdate_exp_queue,
          Attraction.quotaUpdate_agents_in_attraction, Attraction.quotaUpdate_capacity,
          Attraction.quotaUpdate_exp_queue_ratio, h1]
        exact nodup_after_load s.queue s.exp_queue s.agents_in_attraction 0 _ h
      · simp only [Attraction.quotaUpdate_run_time_remaining, h0, if_true,
          Attraction.quotaUpdate_queue, Attraction.quotaUpdate_exp_queue,
          Attraction.quotaUpdate_agents_in_attraction, Attraction.quotaUpdate_capacity,
          Attraction.quotaUpdate_exp_queue_ratio, h1, if_false]
        have h2 := nodup_after_load s.queue s.exp_queue s.agents_in_attraction 0
          (pyInt (s.capacity * s.exp_queue_ratio)).toNat h
        simpa using h2
    · simp only [Attraction.quotaUpdate_run_time_remaining, h0, if_false,
        Attraction.quotaUpdate_queue, Attraction.quotaUpdate_exp_queue,
        Attraction.quotaUpdate_agents_in_attraction]
      exact h
  refine ⟨hstep, fun calls => ?_⟩
  induction calls with
  | nil => intro s h; exact h
  | cons c rest ih =>
    intro s h
    exact ih _ (hstep s c.1 c.2 h)

/-- Claim C7 witness: the invariant holds for the concrete sample attraction
and is preserved by a concrete sequence of two `step` calls. -/
theorem c7_invariant_preserved_witness :
    rideInvariant attrC1 ∧
    rideInvariant ([((0 : ℕ), (600 : ℕ)), (1, 600)].foldl
      (fun s2 c => (s2.step c.1 c.2).1) attrC1) :=
  ⟨by unfold rideInvariant; decide,
   c7_invariant_preserved.2 [(0, 600), (1, 600)] attrC1 (by unfold rideInvariant; decide)⟩

namespace Activity

theorem exitingOf_cons_shift (x : ℤ) (t : List ℤ) (v : List ℤ) : ∀ (i : ℕ),
    exitingOf (x :: t) (i + 1) v = (exitingOf t i v).map (fun p => (p.1 + 1, p.2)) := by
  induction v with
  | nil => intro i; rfl
  | cons a v ih =>
    intro i
    simp only [exitingOf, List.getD_cons_succ, ih (i + 1), List.map_append]
    by_cases hx : t[i]?.getD 1 = 0 <;> simp [hx]

theorem foldl_eraseIdx_shift {α : Type} (ps : List (ℕ × ℤ)) : ∀ (a : α) (l : List α),
    (ps.map (fun p => (p.1 + 1, p.2))).foldl (fun l2 p => l2.eraseIdx p.1) (a :: l)
      = a :: ps.foldl (fun l2 p => l2.eraseIdx p.1) l := by
  induction ps with
  | nil => intro a l; rfl
  | cons p ps ih =>
    intro a l
    simp only [List.map_cons, List.foldl_cons, List.eraseIdx_cons_succ, ih]

/-- The reverse-order deletion of `Activity.step` is exactly a parallel
filter of the two visitor lists on remaining time not equal to 0, and the
returned agents are exactly those with remaining time 0 (in reverse index
order). -/
theorem stepLists : ∀ (v t : List ℤ), v.length = t.length →
    ((exitingOf t 0 v).reverse.map Prod.snd =
        (((v.zip t).filter (fun p => p.2 = 0)).map Prod.fst).reverse)
    ∧ ((exitingOf t 0 v).reverse.foldl (fun l p => l.eraseIdx p.1) v =
        ((v.zip t).filter (fun p => ¬ p.2 = 0)).map Prod.fst)
    ∧ ((exitingOf t 0 v).reverse.foldl (fun l p => l.eraseIdx p.1) t =
        ((v.zip t).filter (fun p => ¬ p.2 = 0)).map Prod.snd) := by
  intro v
  induction v with
  | nil =>
    intro t h
    have ht : t = [] := by
      cases t with
      | nil => rfl
      | cons x t => simp at h
    subst ht
    exact ⟨rfl, rfl, rfl⟩
  | cons a v ih =>
    intro t h
    cases t with
    | nil => simp at h
    | cons x t =>
      have hlen : v.length = t.length := by simpa using h
      obtain ⟨ih1, ih2, ih3⟩ := ih t hlen
      have hex : exitingOf (x :: t) 0 (a :: v) =
          (if x = 0 then [(0, a)] else []) ++ (exitingOf t 0 v).map (fun p => (p.1 + 1, p.2)) := by
        simp only [exitingOf, List.getD_cons_zero, exitingOf_cons_shift]
      by_cases hx : x = 0
      · rw [hex]
        simp only [hx, if_true, List.reverse_append, List.reverse_cons, List.reverse_nil,
          List.nil_append, ← List.map_reverse]
        refine ⟨?_, ?_, ?_⟩
        · simp only [List.map_append, List.map_map]
          have : (Prod.snd ∘ fun p : ℕ × ℤ => (p.1 + 1, p.2)) = Prod.snd := rfl
          rw [this, ih1]
          simp [hx]
        · rw [List.foldl_append, foldl_eraseIdx_shift, ih2]
          simp [hx]
        · rw [List.foldl_append, foldl_eraseIdx_shift, ih3]
          simp [hx]
      · rw [hex]
        simp only [hx, if_false, List.nil_append, ← List.map_reverse]
        refine ⟨?_, ?_, ?_⟩
        · simp only [List.map_map]
          have : (Prod.snd ∘ fun p : ℕ × ℤ => (p.1 + 1, p.2)) = Prod.snd := rfl
          rw [this, ih1]
          simp [hx]
        · rw [foldl_eraseIdx_shift, ih2]
          simp [hx]
        · rw [foldl_eraseIdx_shift, ih3]
          simp [hx]

end Activity

/-- Claim C6: `Activity.step` removes and returns exactly the agents whose
remaining time is exactly 0 (processed, and returned, in reverse index
order); the agents who stay keep their relative order, the two lists stay
the same length, and index alignment between agent IDs and remaining times
is preserved. -/
theorem c6_activity_step (a : Activity) (time : ℤ)
    (h : a.visitors.length = a.visitor_time_remaining.length) :
    (a.step time).1 =
        (((a.visitors.zip a.visitor_time_remaining).filter
            (fun p => p.2 = 0)).map Prod.fst).reverse
    ∧ (a.step time).2.visitors =
        ((a.visitors.zip a.visitor_time_remaining).filter
            (fun p => ¬ p.2 = 0)).map Prod.fst
    ∧ (a.step time).2.visitor_time_remaining =
        ((a.visitors.zip a.visitor_time_remaining).filter
            (fun p => ¬ p.2 = 0)).map Prod.snd
    ∧ (a.step time).2.visitors.length = (a.step time).2.visitor_time_remaining.length
    ∧ (a.step time).2.visitors.zip (a.step time).2.visitor_time_remaining =
        (a.visitors.zip a.visitor_time_remaining).filter (fun p => ¬ p.2 = 0) := by
  obtain ⟨h1, h2, h3⟩ := Activity.stepLists a.visitors a.visitor_time_remaining h
  refine ⟨h1, h2, h3, ?_, ?_⟩
  · simp only [Activity.step, h2, h3, List.length_map]
  · simp only [Activity.step, h2, h3, List.zip_map']
    simp

/-- A sample activity with three visitors, two of them (1 and 3) at exactly
0 remaining minutes. -/
def actSample : Activity :=
  { popularity := 5, mean_time := 30, random_seed := some 42,
    visitors := [1, 2, 3], visitor_time_remaining := [0, 3, 0] }

/-- Claim C6 witness: a concrete activity with remaining times 0, 3, 0
exits agents 3 and 1 (reverse index order) and keeps agent 2 aligned. -/
theorem c6_activity_step_witness :
    actSample.visitors.length = actSample.visitor_time_remaining.length
    ∧ ((actSample.step 5).1 =
        (((actSample.visitors.zip actSample.visitor_time_remaining).filter
            (fun p => p.2 = 0)).map Prod.fst).reverse
    ∧ (actSample.step 5).2.visitors =
        ((actSample.visitors.zip actSample.visitor_time_remaining).filter
            (fun p => ¬ p.2 = 0)).map Prod.fst
    ∧ (actSample.step 5).2.visitor_time_remaining =
        ((actSample.visitors.zip actSample.visitor_time_remaining).filter
            (fun p => ¬ p.2 = 0)).map Prod.snd
    ∧ (actSample.step 5).2.visitors.length = (actSample.step 5).2.visitor_time_remaining.length
    ∧ (actSample.step 5).2.visitors.zip (actSample.step 5).2.visitor_time_remaining =
        (actSample.visitors.zip actSample.visitor_time_remaining).filter (fun p => ¬ p.2 = 0)) :=
  ⟨rfl, c6_activity_step actSample 5 rfl⟩

/-- The stay duration sampled in `add_to_activity` before the
expedited-return cap (src/activity.py lines 74-82): the seeded numpy draw
when the configured seed is truthy, the global draw otherwise, floored at 1
and truncated to an integer. -/
def Activity.sampledStay (np : ℤ → ℚ → ℚ → ℚ) (gdraw : ℚ) (a : Activity)
    (agent_id : ℤ) : ℤ :=
  pyInt (max (if pyTruthy a.random_seed then
      np (a.random_seed.getD 0 + agent_id) a.mean_time (a.mean_time / 2)
    else gdraw) 1)

/-- An empty activity with mean time 30 and no configured seed. -/
def actMean30 : Activity :=
  { popularity := 0, mean_time := 30, random_seed := none,
    visitors := [], visitor_time_remaining := [] }

/-- Claim C9 counterexample: adding an agent with the non-None expedited
return time 0 (falsy in Python) skips the cap entirely: with a sampled
stay of 5 the stored stay is 5, not min(max(1, 0), 5) = 1 as the claim
predicates. -/
theorem c9_counterexample :
    (Activity.add_to_activity (fun _ _ _ => 0) 5 actMean30 9 (some 0)).visitor_time_remaining
      = [5]
    ∧ (5 : ℤ) ≠ min (max 1 0) 5 := by
  constructor
  · norm_num [Activity.add_to_activity, actMean30, pyTruthy, pyInt]
  · decide

/-- Claim C9 (amended): for every agent added with a non-None and nonzero
expedited return time `k`, the stored stay is `min (max 1 k) sampled_stay`
(with `sampled_stay` the normal sample floored at 1); with `k = 0` the cap
is skipped.  In particular with return time 10 the stored stay is capped
at 10 whatever the sample. -/
theorem c9_stay_capped (np : ℤ → ℚ → ℚ → ℚ) (g : ℚ) (a : Activity)
    (agent_id k : ℤ) (hk : k ≠ 0) :
    (Activity.add_to_activity np g a agent_id (some k)).visitor_time_remaining =
      a.visitor_time_remaining ++ [min (max 1 k) (Activity.sampledStay np g a agent_id)]
    ∧ (Activity.add_to_activity np g a agent_id (some 0)).visitor_time_remaining =
      a.visitor_time_remaining ++ [Activity.sampledStay np g a agent_id]
    ∧ (Activity.add_to_activity np g a agent_id (some 10)).visitor_time_remaining.getLast?
        = some (min (max 1 10) (Activity.sampledStay np g a agent_id))
    ∧ min (max 1 10) (Activity.sampledStay np g a agent_id) ≤ 10 := by
  refine ⟨?_, ?_, ?_, ?_⟩
  · simp [Activity.add_to_activity, Activity.sampledStay, pyTruthy, hk]
  · simp [Activity.add_to_activity, Activity.sampledStay, pyTruthy]
  · simp [Activity.add_to_activity, Activity.sampledStay, pyTruthy]
  · have h10 : max (1 : ℤ) 10 = 10 := by decide
    rw [h10]
    exact min_le_left _ _

/-- Claim C9 witness: the amended cap behaviour at a concrete activity,
sampler and return time 7. -/
theorem c9_stay_capped_witness :
    ((7 : ℤ) ≠ 0) ∧
    ((Activity.add_to_activity (fun _ _ _ => 20) 0 actSample 9 (some 7)).visitor_time_remaining =
      actSample.visitor_time_remaining
        ++ [min (max 1 7) (Activity.sampledStay (fun _ _ _ => 20) 0 actSample 9)]
    ∧ (Activity.add_to_activity (fun _ _ _ => 20) 0 actSample 9 (some 0)).visitor_time_remaining =
      actSample.visitor_time_remaining ++ [Activity.sampledStay (fun _ _ _ => 20) 0 actSample 9]
    ∧ (Activity.add_to_activity (fun _ _ _ => 20) 0 actSample 9 (some 10)).visitor_time_remaining.getLast?
        = some (min (max 1 10) (Activity.sampledStay (fun _ _ _ => 20) 0 actSample 9))
    ∧ min (max 1 10) (Activity.sampledStay (fun _ _ _ => 20) 0 actSample 9) ≤ 10) :=
  ⟨by decide, c9_stay_capped (fun _ _ _ => 20) 0 actSample 9 7 (by decide)⟩

/-- The behaviour-archetype distribution used in the C3 counterexample:
two archetypes with equal weight 1. -/
def distC3 : List (String × ℚ) :=
  [("ride_enthusiast", 1), ("ride_favorer", 1)]

/-- Claim C3 counterexample: `select_behavior_archetype` reads the global
unseeded uniform source, so two runs with the same base seed whose global
draws are 1/2 and 3/2 (both legitimate values of `random.uniform(0, 2)`)
select different archetypes. -/
theorem c3_counterexample :
    ((0 : ℚ) ≤ 1/2 ∧ (1/2 : ℚ) ≤ 1 + 1)
    ∧ ((0 : ℚ) ≤ 3/2 ∧ (3/2 : ℚ) ≤ 1 + 1)
    ∧ Agent.select_behavior_archetype (1/2) distC3 = some "ride_enthusiast"
    ∧ Agent.select_behavior_archetype (3/2) distC3 = some "ride_favorer"
    ∧ (some "ride_enthusiast" : Option String) ≠ some "ride_favorer" := by
  refine ⟨⟨by norm_num, by norm_num⟩, ⟨by norm_num, by norm_num⟩, ?_, ?_, by decide⟩
  · norm_num [Agent.select_behavior_archetype, Agent.weightedScan, distC3]
  · norm_num [Agent.select_behavior_archetype, Agent.weightedScan, distC3]

/-- Claim C3 (amended): draws seeded from the base seed are reproducible
across runs — the stay-time preference agrees between two runs whenever
their globally drawn archetypes agree, and `add_to_activity` stores the
same stay whatever the runs' global draws, provided the configured seed is
truthy; archetype and age-class selection, by contrast, consume the
unseeded global source (the counterexample). -/
theorem c3_seeded_reproducible (np : ℤ → ℚ → ℚ → ℚ) (random_seed : ℤ)
    (dist : List (String × ℚ)) (ageOf : String → ℚ × ℚ × ℚ) (stayOf : String → ℚ)
    (agent_id : ℤ) (u1 u2 u1' u2' g g' : ℚ) (a : Activity) (k : Option ℤ)
    (hseed : pyTruthy a.random_seed = true)
    (harch : Agent.select_behavior_archetype u1 dist
      = Agent.select_behavior_archetype u1' dist) :
    (Agent.initializeDraws np random_seed u1 u2 agent_id dist ageOf stayOf).2.2 =
      (Agent.initializeDraws np random_seed u1' u2' agent_id dist ageOf stayOf).2.2
    ∧ (Activity.add_to_activity np g a agent_id k).visitor_time_remaining =
      (Activity.add_to_activity np g' a agent_id k).visitor_time_remaining := by
  constructor
  · simp only [Agent.initializeDraws, harch]
  · simp only [Activity.add_to_activity, hseed, if_true]

/-- Claim C3 witness: two runs with the same seed whose global draws 1/2 and
1/4 happen to agree on the archetype, on a seeded activity. -/
theorem c3_seeded_reproducible_witness :
    pyTruthy actSample.random_seed = true
    ∧ Agent.select_behavior_archetype (1/2) distC3
        = Agent.select_behavior_archetype (1/4) distC3
    ∧ ((Agent.initializeDraws (fun _ _ _ => 0) 42 (1/2) 0 9 distC3
          (fun _ => (1, 0, 0)) (fun _ => 540)).2.2 =
        (Agent.initializeDraws (fun _ _ _ => 0) 42 (1/4) 1 9 distC3
          (fun _ => (1, 0, 0)) (fun _ => 540)).2.2
    ∧ (Activity.add_to_activity (fun _ _ _ => 0) 5 actSample 9 none).visitor_time_remaining =
        (Activity.add_to_activity (fun _ _ _ => 0) 7 actSample 9 none).visitor_time_remaining) :=
  ⟨by decide,
   by norm_num [Agent.select_behavior_archetype, Agent.weightedScan, distC3],
   c3_seeded_reproducible (fun _ _ _ => 0) 42 distC3 (fun _ => (1, 0, 0)) (fun _ => 540)
     9 (1/2) 0 (1/4) 1 5 7 actSample none (by decide)
     (by norm_num [Agent.select_behavior_archetype, Agent.weightedScan, distC3])⟩

namespace Attraction

/-- `exp_seats` of the wait-estimation routines (src/attraction.py lines
71 and 100). -/
def expSeats (s : Attraction) : ℚ := (pyInt (s.capacity * s.exp_queue_ratio) : ℚ)

/-- `standby_seats` of the wait-estimation routines (src/attraction.py
lines 72 and 101). -/
def standbySeats (s : Attraction) : ℚ := s.capacity - s.expSeats

theorem get_wait_time_eq (s : Attraction) (h : s.expedited_queue = true) (fuel : ℕ) :
    s.get_wait_time fuel =
      (waitLoop s.capacity s.expSeats s.standbySeats fuel
        ((s.queue.length : ℚ), (s.exp_queue.length : ℚ))).map
        (fun runs => (runs : ℚ) * s.run_time + s.run_time_remaining) := by
  simp [get_wait_time, h, expSeats, standbySeats]

theorem get_exp_wait_time_eq (s : Attraction) (h : s.expedited_queue = true) (fuel : ℕ) :
    s.get_exp_wait_time fuel =
      (expLoop s.capacity s.expSeats s.standbySeats fuel
        ((s.queue.length : ℚ), (s.exp_queue.length : ℚ))).map
        (fun runs => (runs : ℚ) * s.run_time + s.run_time_remaining) := by
  simp [get_exp_wait_time, h, expSeats, standbySeats]

theorem exists_fuel (cap ss q : ℚ) (hss : 0 < ss) : ∃ n : ℕ, q < cap + n * ss := by
  obtain ⟨n, hn⟩ := exists_nat_gt ((q - cap) / ss)
  refine ⟨n, ?_⟩
  have h2 := (div_lt_iff₀ hss).1 hn
  linarith

/-- With a positive per-cycle standby seat count, the standby wait loop
reaches its guard within a fuel proportional to the queue length. -/
theorem waitLoop_terminates (cap es : ℚ) (hcap : 0 < cap) (hss : 0 < cap - es) :
    ∀ (n : ℕ) (q e : ℚ), 0 ≤ e → q < cap + n * (cap - es) →
      ∃ r, waitLoop cap es (cap - es) n (q, e) = some r := by
  intro n
  induction n with
  | zero =>
    intro q e he hq
    rw [waitLoop]
    have hqc : q < cap := by simpa using hq
    simp [hqc]
  | succ n ih =>
    intro q e he hq
    rw [waitLoop]
    by_cases hguard : q < cap
    · simp [hguard]
    · simp only [hguard, if_false]
      push_neg at hguard
      push_cast at hq
      have hnn : (0 : ℚ) ≤ (n : ℚ) * (cap - es) := mul_nonneg (Nat.cast_nonneg n) hss.le
      by_cases hc : e > es
      · have hb : loopBody cap es (cap - es) (q, e)
            = (if q > cap - es then q - (cap - es) else 0, e - es) := by
          simp [loopBody, hc]
        rw [hb]
        by_cases hqs : q > cap - es
        · rw [if_pos hqs]
          obtain ⟨r, hr⟩ := ih (q - (cap - es)) (e - es) (by linarith) (by linarith)
          exact ⟨r + 1, by rw [hr]; rfl⟩
        · rw [if_neg hqs]
          obtain ⟨r, hr⟩ := ih 0 (e - es) (by linarith) (by linarith)
          exact ⟨r + 1, by rw [hr]; rfl⟩
      · push_neg at hc
        have hb : loopBody cap es (cap - es) (q, e) = (q - (cap - e), 0) := by
          simp [loopBody, not_lt.2 hc]
        rw [hb]
        obtain ⟨r, hr⟩ := ih (q - (cap - e)) 0 le_rfl (by linarith)
        exact ⟨r + 1, by rw [hr]; rfl⟩

/-- With at least one expedited seat per cycle, the expedited wait loop
reaches its guard within a fuel proportional to the expedited queue
length. -/
theorem expLoop_terminates (cap es ss : ℚ) (hcap : 0 < cap) (hes : 1 ≤ es) :
    ∀ (n : ℕ) (q e : ℚ), e < cap + n * es →
      ∃ r, expLoop cap es ss n (q, e) = some r := by
  intro n
  induction n with
  | zero =>
    intro q e hq
    rw [expLoop]
    have hec : e < cap := by simpa using hq
    simp [hec]
  | succ n ih =>
    intro q e hq
    rw [expLoop]
    by_cases hguard : e < cap
    · simp [hguard]
    · simp only [hguard, if_false]
      push_neg at hguard
      push_cast at hq
      have hnn : (0 : ℚ) ≤ (n : ℚ) * es := mul_nonneg (Nat.cast_nonneg n) (by linarith)
      by_cases hc : e > es
      · have hb : loopBody cap es ss (q, e)
            = (if q > ss then q - ss else 0, e - es) := by
          simp [loopBody, hc]
        rw [hb]
        obtain ⟨r, hr⟩ := ih (if q > ss then q - ss else 0) (e - es) (by linarith)
        exact ⟨r + 1, by rw [hr]; rfl⟩
      · push_neg at hc
        have hb : loopBody cap es ss (q, e) = (q - (cap - e), 0) := by
          simp [loopBody, not_lt.2 hc]
        rw [hb]
        obtain ⟨r, hr⟩ := ih (q - (cap - e)) 0 (by linarith)
        exact ⟨r + 1, by rw [hr]; rfl⟩

/-- With zero expedited seats per cycle and a full expedited queue, the
expedited wait loop never leaves the state (0, 10): its body subtracts
0 from the expedited-queue length.  No fuel suffices. -/
theorem expLoop_stuck : ∀ n : ℕ, expLoop 10 0 10 n (0, 10) = none := by
  intro n
  induction n with
  | zero =>
    rw [expLoop]
    norm_num
  | succ n ih =>
    rw [expLoop]
    have hb : loopBody 10 0 10 (0, 10) = (0, 10) := by
      norm_num [loopBody]
    norm_num [hb, ih]

theorem pyInt_nonneg (q : ℚ) (h : 0 ≤ q) : 0 ≤ pyInt q := by
  rw [pyInt, if_pos h]
  exact Int.floor_nonneg.mpr h

end Attraction

/-- The C2 counterexample attraction: capacity 10, expedited queue enabled
with ratio 1/20, so int(10 * 1/20) = 0 expedited seats per cycle; 10 agents
wait in the expedited queue and the standby queue is empty. -/
def attrC2 : Attraction :=
  { attrSample with exp_queue_ratio := 1/20,
                    exp_queue := [1, 2, 3, 4, 5, 6, 7, 8, 9, 10] }

/-- Claim C2 counterexample: on an attraction with capacity 10 > 0 and the
expedited queue enabled (ratio 1/20), `get_exp_wait_time` does not
terminate for any amount of fuel: the loop body subtracts int(10/20) = 0
expedited seats per iteration, so the expedited queue length never drops
below capacity. -/
theorem c2_counterexample :
    (0 : ℚ) < attrC2.capacity ∧ attrC2.expedited_queue = true
    ∧ ¬ ∃ (n : ℕ) (r : ℚ), attrC2.get_exp_wait_time n = some r := by
  refine ⟨by norm_num [attrC2, attrSample], rfl, ?_⟩
  rintro ⟨n, r, hr⟩
  have hstuck := Attraction.expLoop_stuck n
  norm_num [Attraction.get_exp_wait_time, attrC2, attrSample, pyInt, hstuck] at hr
  exact Option.noConfusion hr

/-- Claim C2 (amended): for an attraction with capacity > 0, expedited
queue enabled and a nonnegative seat ratio: when the reserved expedited
seats leave at least one standby seat (int(capacity * ratio) < capacity),
each `get_wait_time` loop iteration strictly shrinks the standby queue
length and the loop terminates; when at least one expedited seat is
reserved (1 <= int(capacity * ratio)), each `get_exp_wait_time` loop
iteration strictly shrinks the expedited queue length and the loop
terminates.  (With int(capacity * ratio) = 0 the expedited loop need not
terminate — the counterexample.) -/
theorem c2_wait_estimation_loops (s : Attraction)
    (hexp : s.expedited_queue = true) (hcap : 0 < s.capacity)
    (_hratio : 0 ≤ s.exp_queue_ratio) :
    (s.expSeats < s.capacity →
      (∀ q e : ℚ, s.capacity ≤ q →
        (Attraction.loopBody s.capacity s.expSeats s.standbySeats (q, e)).1 < q)
      ∧ ∃ (n : ℕ) (r : ℚ), s.get_wait_time n = some r)
    ∧ (1 ≤ s.expSeats →
      (∀ q e : ℚ, s.capacity ≤ e →
        (Attraction.loopBody s.capacity s.expSeats s.standbySeats (q, e)).2 < e)
      ∧ ∃ (n : ℕ) (r : ℚ), s.get_exp_wait_time n = some r) := by
  have hsseq : s.standbySeats = s.capacity - s.expSeats := rfl
  constructor
  · intro hlt
    have hss : 0 < s.capacity - s.expSeats := by linarith
    constructor
    · intro q e hq
      by_cases hc : e > s.expSeats
      · have hb : Attraction.loopBody s.capacity s.expSeats s.standbySeats (q, e)
            = (if q > s.standbySeats then q - s.standbySeats else 0, e - s.expSeats) := by
          simp [Attraction.loopBody, hc]
        rw [hb]
        by_cases hqs : q > s.standbySeats
        · rw [if_pos hqs]
          simp only [hsseq] at *
          linarith
        · rw [if_neg hqs]
          simp only []
          linarith
      · push_neg at hc
        have hb : Attraction.loopBody s.capacity s.expSeats s.standbySeats (q, e)
            = (q - (s.capacity - e), 0) := by
          simp [Attraction.loopBody, not_lt.2 hc]
        rw [hb]
        simp only []
        linarith
    · obtain ⟨n, hn⟩ :=
        Attraction.exists_fuel s.capacity (s.capacity - s.expSeats) (s.queue.length : ℚ) hss
      obtain ⟨r, hr⟩ := Attraction.waitLoop_terminates s.capacity s.expSeats hcap hss n
        (s.queue.length : ℚ) (s.exp_queue.length : ℚ) (Nat.cast_nonneg _) hn
      refine ⟨n, (r : ℚ) * s.run_time + s.run_time_remaining, ?_⟩
      rw [Attraction.get_wait_time_eq s hexp, hsseq, hr]
      rfl
  · intro h1
    constructor
    · intro q e he
      by_cases hc : e > s.expSeats
      · have hb : Attraction.loopBody s.capacity s.expSeats s.standbySeats (q, e)
            = (if q > s.standbySeats then q - s.standbySeats else 0, e - s.expSeats) := by
          simp [Attraction.loopBody, hc]
        rw [hb]
        simp only []
        linarith
      · push_neg at hc
        have hb : Attraction.loopBody s.capacity s.expSeats s.standbySeats (q, e)
            = (q - (s.capacity - e), 0) := by
          simp [Attraction.loopBody, not_lt.2 hc]
        rw [hb]
        simp only []
        linarith
    · obtain ⟨n, hn⟩ :=
        Attraction.exists_fuel s.capacity s.expSeats (s.exp_queue.length : ℚ) (by linarith)
      obtain ⟨r, hr⟩ := Attraction.expLoop_terminates s.capacity s.expSeats s.standbySeats
        hcap h1 n (s.queue.length : ℚ) (s.exp_queue.length : ℚ) hn
      refine ⟨n, (r : ℚ) * s.run_time + s.run_time_remaining, ?_⟩
      rw [Attraction.get_exp_wait_time_eq s hexp, hr]
      rfl

/-- Claim C2 witness: on the concrete attraction with capacity 10 and
ratio 1/5 (2 expedited seats, 8 standby seats), both loops terminate. -/
theorem c2_wait_estimation_loops_witness :
    attrC1.expedited_queue = true ∧ (0 : ℚ) < attrC1.capacity
    ∧ (0 : ℚ) ≤ attrC1.exp_queue_ratio
    ∧ attrC1.expSeats < attrC1.capacity ∧ (1 : ℚ) ≤ attrC1.expSeats
    ∧ (∃ (n : ℕ) (r : ℚ), attrC1.get_wait_time n = some r)
    ∧ (∃ (n : ℕ) (r : ℚ), attrC1.get_exp_wait_time n = some r) := by
  have h0 : (0 : ℚ) < attrC1.capacity := by norm_num [attrC1, attrSample]
  have h3 : (0 : ℚ) ≤ attrC1.exp_queue_ratio := by norm_num [attrC1, attrSample]
  have h1 : attrC1.expSeats < attrC1.capacity := by
    norm_num [Attraction.expSeats, attrC1, attrSample, pyInt]
  have h2 : (1 : ℚ) ≤ attrC1.expSeats := by
    norm_num [Attraction.expSeats, attrC1, attrSample, pyInt]
  exact ⟨rfl, h0, h3, h1, h2,
    ((c2_wait_estimation_loops attrC1 rfl h0 h3).1 h1).2,
    ((c2_wait_estimation_loops attrC1 rfl h0 h3).2 h2).2⟩
